import Mathlib

/-!
Shallow embedding of the node-b2 client library (src/index.js) and proofs
about it.  JavaScript values are modelled by `JsVal`; each library function
becomes a pure Lean function over explicit inputs, with the external
collaborators (the HTTP transport, the filesystem stat, the sha1 digest and
JSON.parse) passed in as parameters.  A JavaScript exception (TypeError and
the like) is modelled as `Except.error` with the exception's name.
-/

/-- Model of a JavaScript value: the primitives, plain objects as ordered
association lists, and arrays. Object identity is not modelled; `jsStrictEq`
treats two objects as distinct references (the source only ever compares
primitives with `===`). -/
inductive JsVal where
  | undefined
  | null
  | bool (b : Bool)
  | num (n : Int)
  | str (s : String)
  | obj (fields : List (String × JsVal))
  | arr (elems : List JsVal)

/-- JavaScript truthiness. -/
def JsVal.truthy : JsVal → Bool
  | .undefined => false
  | .null => false
  | .bool b => b
  | .num n => n != 0
  | .str s => s != ""
  | .obj _ => true
  | .arr _ => true

/-- The test `typeof v === "object"`; in JavaScript this is true for plain
objects, arrays and also for `null`. -/
def JsVal.typeofObject : JsVal → Bool
  | .null => true
  | .obj _ => true
  | .arr _ => true
  | _ => false

/-- True when a property read on the value cannot throw (anything except
`null` and `undefined`). -/
def JsVal.propSafe : JsVal → Bool
  | .null => false
  | .undefined => false
  | _ => true

/-- Total property read: the named field of an object, `undefined` on every
other value (property reads on primitives box and yield `undefined`; the
source never reads index/length properties through this helper). -/
def JsVal.getF (v : JsVal) (k : String) : JsVal :=
  match v with
  | .obj fs => (((fs.find? (fun p => p.1 == k)).map Prod.snd).getD .undefined)
  | _ => .undefined

/-- Key membership test for an object value (the non-throwing core of the
`in` operator). -/
def JsVal.hasKeyB (v : JsVal) (k : String) : Bool :=
  match v with
  | .obj fs => fs.any (fun p => p.1 == k)
  | _ => false

/-- Property read `v.k` as evaluated by JavaScript: a TypeError on `null`
and `undefined`, otherwise `getF`. -/
def JsVal.get? (v : JsVal) (k : String) : Except String JsVal :=
  match v with
  | .null => .error "TypeError"
  | .undefined => .error "TypeError"
  | v => .ok (v.getF k)

/-- Update or append a key in an ordered association list. -/
def setAssoc (k : String) (x : JsVal) : List (String × JsVal) → List (String × JsVal)
  | [] => [(k, x)]
  | (k', v') :: rest => if k' == k then (k, x) :: rest else (k', v') :: setAssoc k x rest

/-- Property assignment `v.k = x`.  Only ever applied to objects on the
reachable paths of the source (a non-object target is returned unchanged). -/
def JsVal.set (v : JsVal) (k : String) (x : JsVal) : JsVal :=
  match v with
  | .obj fs => .obj (setAssoc k x fs)
  | other => other

/-- The JavaScript `in` operator; its right operand must be an object,
otherwise a TypeError is thrown.  The source never probes index keys of an
array, so array operands answer `false`. -/
def jsIn (k : String) (v : JsVal) : Except String Bool :=
  match v with
  | .obj fs => .ok (fs.any (fun p => p.1 == k))
  | .arr _ => .ok false
  | _ => .error "TypeError"

/-- Strict equality `===` restricted to the shapes the source compares:
primitives by value; two objects/arrays count as distinct references. -/
def jsStrictEq : JsVal → JsVal → Bool
  | .undefined, .undefined => true
  | .null, .null => true
  | .bool a, .bool b => a == b
  | .num a, .num b => a == b
  | .str a, .str b => a == b
  | _, _ => false

/-- String coercion as used by the source's few string concatenations
(account id in a query string, bucket/file names in a download path); these
are strings on every reachable path.  Array coercion is not exercised and is
given a stand-in rendering. -/
def JsVal.toStr : JsVal → String
  | .undefined => "undefined"
  | .null => "null"
  | .bool b => cond b "true" "false"
  | .num n => toString n
  | .str s => s
  | .obj _ => "[object Object]"
  | .arr _ => "[array]"

/-- Read `v.k` and immediately use it as an array (the source maps over it or
reads `length`/an index); any non-array yields a TypeError. -/
def jsArr (v : JsVal) (k : String) : Except String (List JsVal) := do
  let f ← v.get? k
  match f with
  | .arr xs => .ok xs
  | _ => .error "TypeError"

/-- The filtering loop `xs.map((f) => { if (f.key === target) out.push(f) })`:
property reads are evaluated on every element (so a null element throws), and
the elements whose field is strictly equal to the target are kept in order. -/
def filterByField (key : String) (target : JsVal) : List JsVal → Except String (List JsVal)
  | [] => .ok []
  | f :: rest => do
    let v ← f.get? key
    let r ← filterByField key target rest
    .ok (if jsStrictEq v target then f :: r else r)

/-- The loop `xs.map((b) => { if (b.key === target) ret = b })`: every
element's field is read, and the last strict match (if any) is kept. -/
def lastMatch (key : String) (target : JsVal) : List JsVal → Except String (Option JsVal)
  | [] => .ok none
  | b :: rest => do
    let v ← b.get? key
    let r ← lastMatch key target rest
    match r with
    | some x => .ok (some x)
    | none => .ok (if jsStrictEq v target then some b else none)

/-- The uniform error value produced by `b2Error` (src/index.js lines
498-534): the fields copied from `this.api` in the constructor's `finally`
block, plus the raw argument stored as `requestObject`. -/
structure NormalizedError where
  status : JsVal
  code : JsVal
  message : JsVal
  requestObject : JsVal

/-- The default `this.api` object built in the catch branch of `b2Error`:
status 0, code "application_error", and the argument itself as message when
it is a string. -/
def b2ErrorDefaultApi (data : JsVal) : JsVal :=
  let message := match data with
    | .str s => s
    | _ => "Error connecting to B2 service."
  .obj [("status", .num 0), ("code", .str "application_error"), ("message", .str message)]

/-- Model of `b2Error(data)` (src/index.js lines 498-534).  The constructor's
try block throws (caught) when `data` has no `body` key or `data.body` is not
`typeof "object"`; the `in` operator itself throws (also caught) when `data`
is not an object.  The `finally` block then reads `status`/`code`/`message`
off `this.api`; when `data.body` is `null` (which passes the `typeof`
check) those reads throw an uncaught TypeError, modelled as `Except.error`. -/
def b2Error (data : JsVal) : Except String NormalizedError := do
  let api : JsVal :=
    match data with
    | .obj fs =>
      let body := (JsVal.obj fs).getF "body"
      if (JsVal.obj fs).hasKeyB "body" && body.typeofObject then body
      else b2ErrorDefaultApi data
    | _ => b2ErrorDefaultApi data
  let status ← api.get? "status"
  let code ← api.get? "code"
  let message ← api.get? "message"
  .ok { status := status, code := code, message := message, requestObject := data }

/-- The request wrapper created by `request.defaults` in a successful
authorize (src/index.js lines 54-61): a fixed base URL and the stored
authorization token attached to every later call. -/
structure ReqDefaults where
  baseUrl : String
  authToken : JsVal

/-- Session state held on a `b2` instance.  `request` is `none` until a
successful authorize installs the defaulted request wrapper. -/
structure Session where
  authorized : Bool
  accountId : JsVal
  applicationKey : JsVal
  apiUrl : JsVal
  authorizationToken : JsVal
  downloadUrl : JsVal
  minimumPartSize : JsVal
  request : Option ReqDefaults

/-- Model of the constructor `b2(object)` (src/index.js lines 14-21).
Reading `object.accountId` on a null/undefined argument throws.  The initial
`apiUrl` comes from `conf.json`; that file is not part of the sources, so its
value is taken as a parameter (the spec only says a side file supplies the
base API URL). -/
def b2mk (object : JsVal) (confApiUrl : JsVal) : Except String Session := do
  let acc ← object.get? "accountId"
  let key ← object.get? "applicationKey"
  .ok { authorized := false, accountId := acc, applicationKey := key, apiUrl := confApiUrl,
        authorizationToken := .undefined, downloadUrl := .undefined, minimumPartSize := .undefined,
        request := none }

/-- One network call issued through the defaulted request wrapper: a GET with
a URL, or a POST with a URL and the form object (the source sends
`JSON.stringify` of this object). -/
inductive NetworkCall where
  | get (url : String)
  | post (url : String) (formData : JsVal)

/-- The `(err, resp, body)` triple delivered to a request callback. -/
structure TrOut where
  err : JsVal
  resp : JsVal
  body : JsVal

/-- The HTTP transport, an external collaborator: what each issued call
delivers to its callback. -/
def Transport := NetworkCall → TrOut

/-- The shared response gate `if (err || resp.statusCode !== 200) return
callback(b2Error(resp), {})`: yields the normalized error to hand to the
callback, or `none` when the response is a 200 success.  Reading
`resp.statusCode` of an absent response, or a `b2Error` throw, propagates. -/
def checkResp (out : TrOut) : Except String (Option NormalizedError) := do
  if out.err.truthy then
    let e ← b2Error out.resp
    .ok (some e)
  else
    let sc ← out.resp.get? "statusCode"
    if jsStrictEq sc (.num 200) then .ok none
    else
      let e ← b2Error out.resp
      .ok (some e)

/-- What a resource operation hands to its caller's callback. -/
inductive CbOut where
  | success (body : JsVal)
  | failure (e : NormalizedError)

/-- The common tail of the simple operations: run the response gate, then
`callback(b2Error(resp), {})` or `callback(null, body)`. -/
def standardResp (call : NetworkCall) (out : TrOut) :
    Except String (List NetworkCall × CbOut) := do
  match ← checkResp out with
  | some e => .ok ([call], .failure e)
  | none => .ok ([call], .success out.body)

/-- Outcome of an authorize call. -/
inductive AuthResult where
  | failure (e : NormalizedError)
  | success (body : JsVal)
  | silentReturn

/-- Model of `b2.prototype.authorize` (src/index.js lines 26-68), applied to
the `(err, resp, body)` the transport delivers for the basic-auth GET.  A
thrown exception carries the session as mutated so far: on the failure branch
`try { callback(b2Error(resp), {}) } finally { return }` swallows even a
`b2Error` throw (`silentReturn`), leaving the session untouched; on the 200
branch `this.authorized = true` is assigned before the body fields are read,
so a null/undefined body leaves a partially updated session behind the thrown
TypeError. -/
def Session.authorize (st : Session) (err resp body : JsVal) :
    Except (String × Session) (Session × AuthResult) :=
  let failBranch : Except (String × Session) (Session × AuthResult) :=
    match b2Error resp with
    | .ok e => .ok (st, .failure e)
    | .error _ => .ok (st, .silentReturn)
  if err.truthy then failBranch
  else
    match resp.get? "statusCode" with
    | .error m => .error (m, st)
    | .ok sc =>
      if !(jsStrictEq sc (.num 200)) then failBranch
      else
        match body with
        | .null => .error ("TypeError", { st with authorized := true })
        | .undefined => .error ("TypeError", { st with authorized := true })
        | b =>
          .ok ({ st with
                  authorized := true,
                  apiUrl := b.getF "apiUrl",
                  authorizationToken := b.getF "authorizationToken",
                  downloadUrl := b.getF "downloadUrl",
                  minimumPartSize := b.getF "minimumPartSize",
                  request := some { baseUrl := (b.getF "apiUrl").toStr ++ "/b2api/v1/",
                                    authToken := b.getF "authorizationToken" } },
               .success b)

/-- Model of `listBuckets(...input)` (src/index.js lines 74-102).  `input0`
is the optional leading argument; a string makes it a bucket-name filter.
Before authorize `this.request` is undefined, so reading `.get` off it throws
a TypeError and no network call is issued.  With a filter, the `map` loop
assigns `ret` on every strict name match, so the last match (or `undefined`)
is returned. -/
def Session.listBuckets (st : Session) (input0 : JsVal) (tr : Transport) :
    Except String (List NetworkCall × CbOut) :=
  match st.request with
  | none => .error "TypeError"
  | some _ => do
    let filter : Option String := match input0 with | .str s => some s | _ => none
    let call := NetworkCall.get ("/b2_list_buckets?accountId=" ++ st.accountId.toStr)
    let out := tr call
    match ← checkResp out with
    | some e => .ok ([call], .failure e)
    | none =>
      match filter with
      | none => .ok ([call], .success out.body)
      | some f => do
        let buckets ← jsArr out.body "buckets"
        let ret ← lastMatch "bucketName" (.str f) buckets
        .ok ([call], .success (ret.getD .undefined))

/-- Model of `createBucket(data, callback)` (src/index.js lines 107-124):
form data with the account id, the bucket name and a default `allPrivate`
type, the latter overridden when `bucketType` is present. -/
def Session.createBucket (st : Session) (data : JsVal) (tr : Transport) :
    Except String (List NetworkCall × CbOut) := do
  let bn ← data.get? "bucketName"
  let formData := JsVal.obj
    [("accountId", st.accountId), ("bucketName", bn), ("bucketType", .str "allPrivate")]
  let hasBT ← jsIn "bucketType" data
  let bt ← data.get? "bucketType"
  let formData := if hasBT then formData.set "bucketType" bt else formData
  match st.request with
  | none => .error "TypeError"
  | some _ => standardResp (.post "/b2_create_bucket" formData) (tr (.post "/b2_create_bucket" formData))

/-- Model of `listFileNames(data, callback)` (src/index.js lines 129-152):
required `bucketId` plus the optional `startFileName`, `maxFileCount` and
`depth` fields copied when present. -/
def Session.listFileNames (st : Session) (data : JsVal) (tr : Transport) :
    Except String (List NetworkCall × CbOut) := do
  let bucketId ← data.get? "bucketId"
  let formData := JsVal.obj [("bucketId", bucketId)]
  let hasSFN ← jsIn "startFileName" data
  let sfn ← data.get? "startFileName"
  let formData := if hasSFN then formData.set "startFileName" sfn else formData
  let hasMFC ← jsIn "maxFileCount" data
  let mfc ← data.get? "maxFileCount"
  let formData := if hasMFC then formData.set "maxFileCount" mfc else formData
  let hasD ← jsIn "depth" data
  let dep ← data.get? "depth"
  let formData := if hasD then formData.set "depth" dep else formData
  match st.request with
  | none => .error "TypeError"
  | some _ => standardResp (.post "/b2_list_file_names" formData) (tr (.post "/b2_list_file_names" formData))

/-- Model of `listFileVersions(data, callback)` (src/index.js lines 157-197):
required `bucketId`, optional `startFileName`/`startFileId`/`maxFileCount`
copied when present.  When `strict` is truthy, the success body is reshaped:
`files` keeps only the entries whose `fileName` is strictly equal to
`formData.startFileName` (undefined when no `startFileName` was supplied),
while `nextFileId`/`nextFileName` are copied from the body unfiltered. -/
def Session.listFileVersions (st : Session) (data : JsVal) (tr : Transport) :
    Except String (List NetworkCall × CbOut) := do
  let bucketId ← data.get? "bucketId"
  let formData := JsVal.obj [("bucketId", bucketId)]
  let hasSFN ← jsIn "startFileName" data
  let sfn ← data.get? "startFileName"
  let formData := if hasSFN then formData.set "startFileName" sfn else formData
  let hasSFI ← jsIn "startFileId" data
  let sfi ← data.get? "startFileId"
  let formData := if hasSFI then formData.set "startFileId" sfi else formData
  let hasMFC ← jsIn "maxFileCount" data
  let mfc ← data.get? "maxFileCount"
  let formData := if hasMFC then formData.set "maxFileCount" mfc else formData
  let hasStrict ← jsIn "strict" data
  let strictV ← data.get? "strict"
  let strict := if hasStrict then strictV else .bool false
  match st.request with
  | none => .error "TypeError"
  | some _ => do
    let call := NetworkCall.post "/b2_list_file_versions" formData
    let out := tr call
    match ← checkResp out with
    | some e => .ok ([call], .failure e)
    | none =>
      if !strict.truthy then .ok ([call], .success out.body)
      else do
        let nextFileId ← out.body.get? "nextFileId"
        let nextFileName ← out.body.get? "nextFileName"
        let files ← jsArr out.body "files"
        let sfnF ← formData.get? "startFileName"
        let matched ← filterByField "fileName" sfnF files
        .ok ([call], .success (.obj
          [("files", .arr matched), ("nextFileId", nextFileId), ("nextFileName", nextFileName)]))

/-- Model of `deleteFile(data, callback)` (src/index.js lines 202-222): both
`fileName` and `fileId` are required, checked before anything else; a missing
one yields the validation error with no network call. -/
def Session.deleteFile (st : Session) (data : JsVal) (tr : Transport) :
    Except String (List NetworkCall × CbOut) := do
  let hasFN ← jsIn "fileName" data
  let hasFI ← jsIn "fileId" data
  if !hasFN || !hasFI then do
    let e ← b2Error (.str "Missing required input. \x7b fileName or fileId \x7d")
    .ok ([], .failure e)
  else do
    let fn ← data.get? "fileName"
    let fi ← data.get? "fileId"
    let formData := JsVal.obj [("fileName", fn), ("fileId", fi)]
    match st.request with
    | none => .error "TypeError"
    | some _ => standardResp (.post "/b2_delete_file_version" formData) (tr (.post "/b2_delete_file_version" formData))

/-- Model of `getUploadUrl(bucketId, callback)` (src/index.js lines 228-243). -/
def Session.getUploadUrl (st : Session) (bucketId : JsVal) (tr : Transport) :
    Except String (List NetworkCall × CbOut) :=
  match st.request with
  | none => .error "TypeError"
  | some _ =>
    let formData := JsVal.obj [("bucketId", bucketId)]
    standardResp (.post "/b2_get_upload_url" formData) (tr (.post "/b2_get_upload_url" formData))

/-- Model of `getAuthToken(data, callback)` (src/index.js lines 469-492):
`bucketId`, `fileNamePrefix` and `duration` are all required, checked before
any network call; on success only `body.authorizationToken` is returned. -/
def Session.getAuthToken (st : Session) (data : JsVal) (tr : Transport) :
    Except String (List NetworkCall × CbOut) := do
  let hasBI ← jsIn "bucketId" data
  let hasFP ← jsIn "fileNamePrefix" data
  let hasDur ← jsIn "duration" data
  if !hasBI || !hasFP || !hasDur then do
    let e ← b2Error (.str "Missing required data. \x7b bucketId, fileNamePrefix, duration \x7d")
    .ok ([], .failure e)
  else do
    let bi ← data.get? "bucketId"
    let fp ← data.get? "fileNamePrefix"
    let dur ← data.get? "duration"
    let formData := JsVal.obj
      [("bucketId", bi), ("fileNamePrefix", fp), ("validDurationInSeconds", dur)]
    match st.request with
    | none => .error "TypeError"
    | some _ => do
      let call := NetworkCall.post "/b2_get_download_authorization" formData
      let out := tr call
      match ← checkResp out with
      | some e => .ok ([call], .failure e)
      | none => do
        let tok ← out.body.get? "authorizationToken"
        .ok ([call], .success tok)

/-- Model of `getFileInfo(data, callback)` (src/index.js lines 408-464),
with a structural fuel for the self-calls (three levels suffice: bucketName
resolution, fileName resolution, fetch by fileId).  Branch one resolves the
bucket name through `listBuckets` and reads `bucketId` off the result (a
TypeError when no bucket matched, since the result is then `undefined`);
branch two mutates `data` with `startFileName`/`strict` and resolves the file
name through `listFileVersions`, failing with the "Unable to locate file."
error on zero exact matches; branch three posts the remaining `data` as-is. -/
def Session.getFileInfoFuel (st : Session) (tr : Transport) :
    Nat → JsVal → Except String (List NetworkCall × CbOut)
  | 0, _ => .error "InternalFuelExhausted"
  | fuel + 1, data => do
    let hasFN ← jsIn "fileName" data
    let hasBN ← jsIn "bucketName" data
    if hasFN && hasBN then do
      let bn ← data.get? "bucketName"
      let (calls1, r1) ← st.listBuckets bn tr
      match r1 with
      | .failure e => .ok (calls1, .failure e)
      | .success res => do
        let bucketId ← res.get? "bucketId"
        let fn ← data.get? "fileName"
        let (calls2, r2) ← st.getFileInfoFuel tr fuel (.obj [("fileName", fn), ("bucketId", bucketId)])
        .ok (calls1 ++ calls2, r2)
    else do
      let hasBI ← jsIn "bucketId" data
      if hasFN && hasBI then do
        let fn ← data.get? "fileName"
        let data2 := (data.set "startFileName" fn).set "strict" (.bool true)
        let (calls1, r1) ← st.listFileVersions data2 tr
        match r1 with
        | .failure e => .ok (calls1, .failure e)
        | .success res => do
          let files ← jsArr res "files"
          if files.length < 1 then do
            let e ← b2Error (.str "Unable to locate file.")
            .ok (calls1, .failure e)
          else do
            let fid ← (files.headD .undefined).get? "fileId"
            let (calls2, r2) ← st.getFileInfoFuel tr fuel (.obj [("fileId", fid)])
            .ok (calls1 ++ calls2, r2)
      else
        match st.request with
        | none => .error "TypeError"
        | some _ => standardResp (.post "/b2_get_file_info" data) (tr (.post "/b2_get_file_info" data))

/-- `getFileInfo` entry point; fuel 3 covers the deepest resolution chain. -/
def Session.getFileInfo (st : Session) (data : JsVal) (tr : Transport) :
    Except String (List NetworkCall × CbOut) :=
  st.getFileInfoFuel tr 3 data

/-- The options object built for the upload POST (src/index.js lines
299-309): the endpoint URL and the five headers. -/
structure UploadOptions where
  url : JsVal
  authorizationToken : JsVal
  contentType : JsVal
  contentLength : JsVal
  fileNameHeader : JsVal
  sha1Header : JsVal

/-- What an `uploadFile` call that reaches the retry loop produces: the
network calls of the preparation phase, the options of the upload POST, the
number of upload attempts issued, the backoff delays slept between attempts,
and the outcome handed to the invoker's callback. -/
structure UploadResult where
  prepCalls : List NetworkCall
  options : UploadOptions
  attempts : Nat
  delays : List Nat
  outcome : CbOut

/-- Modelled from the spec: the retry combinator of the external `async`
library (not part of the sources).  It attempts the task, retrying on
failure up to `times` total attempts, sleeping `interval n` before retry
number `n` (0-indexed), and reports only the final attempt's outcome.
`rem` is the number of retries still allowed after the current attempt `i`. -/
def asyncRetryGo (interval : Nat → Nat) (post : Nat → Except String CbOut) :
    Nat → Nat → Except String (Nat × List Nat × CbOut)
  | i, 0 => do
    let r ← post i
    .ok (i + 1, [], r)
  | i, rem + 1 => do
    let r ← post i
    match r with
    | .success b => .ok (i + 1, [], .success b)
    | .failure _ => do
      let (n, ds, out) ← asyncRetryGo interval post (i + 1) rem
      .ok (n, interval i :: ds, out)

/-- Modelled from the spec: `async.retry({times, interval}, task, cb)` with
`times` total attempts (at least one attempt is always made). -/
def asyncRetry (times : Nat) (interval : Nat → Nat) (post : Nat → Except String CbOut) :
    Except String (Nat × List Nat × CbOut) :=
  asyncRetryGo interval post 0 (times - 1)

/-- Model of `uploadFile(data, callback)` (src/index.js lines 252-336).

The retry count (line 259) is `("retry" in data) && (new Number).isInteger(data.retry)
? data.retry : 3`; `isInteger` is a static method of the `Number` constructor
and is absent from `Number.prototype`, so whenever a `retry` field is present
the call `(new Number).isInteger(...)` throws a TypeError; otherwise the
`&&` short-circuits and the default 3 is used.

The three preparatory branches run under `async.parallel`; each branch's
callback ignores its `err` and reports `callback(null, true)`, so a failed
`getUploadUrl` leaves `data.endpoint = {}` (the `{}` its callback passes), a
failed digest leaves `data.sha1 = undefined`, and a failed stat leaves
`data.stat = undefined` — the join always proceeds to the upload phase.
Reading `data.stat.size` for the Content-Length header then throws when the
stat failed; a missing endpoint or digest simply puts `undefined` in the
options.  `sha1Out`/`statOut` are the `(err, result)` pairs the external
digest and filesystem collaborators deliver; `post` gives each upload
attempt's transport outcome; `jparse` models the external `JSON.parse`
applied to a 200 attempt body. -/
def Session.uploadFile (st : Session) (data : JsVal) (tr : Transport)
    (sha1Out : JsVal × JsVal) (statOut : JsVal × JsVal)
    (post : Nat → TrOut) (jparse : JsVal → Except String JsVal) :
    Except String UploadResult := do
  let hasRetry ← jsIn "retry" data
  if hasRetry then .error "TypeError"
  else do
    let retryAttempts : Nat := 3
    let bucketId ← data.get? "bucketId"
    let (prepCalls, uuOut) ← st.getUploadUrl bucketId tr
    let endpoint := match uuOut with
      | .success b => b
      | .failure _ => .obj []
    let sha1v := sha1Out.2
    let statv := statOut.2
    let url ← endpoint.get? "uploadUrl"
    let authTok ← endpoint.get? "authorizationToken"
    let hasCT ← jsIn "contentType" data
    let ctv ← data.get? "contentType"
    let ct := if hasCT then ctv else JsVal.str "b2/x-auto"
    let clen ← statv.get? "size"
    let fn ← data.get? "fileName"
    let options : UploadOptions :=
      { url := url, authorizationToken := authTok, contentType := ct,
        contentLength := clen, fileNameHeader := fn, sha1Header := sha1v }
    let postFile : Nat → Except String CbOut := fun i => do
      let out := post i
      match ← checkResp out with
      | some e => .ok (.failure e)
      | none => do
        let parsed ← jparse out.body
        .ok (.success parsed)
    let (n, ds, fin) ← asyncRetry retryAttempts (fun rc => 50 * 2 ^ rc) postFile
    .ok { prepCalls := prepCalls, options := options, attempts := n, delays := ds, outcome := fin }

/-- The request object `getFileStream` builds (src/index.js lines 344-352):
host is the download URL with its `https://` prefix stripped, path is
`/file/{bucketName}/{fileName}`, with the session token attached. -/
structure DlReq where
  host : String
  path : String
  authorization : JsVal

/-- What `downloadFile` hands to its caller: a normal success, a normalized
failure, or the raw (unnormalized) digest error passed through when the
post-download sha1 recomputation itself fails. -/
inductive DlOutcome where
  | ok (resp : JsVal)
  | fail (e : NormalizedError) (second : JsVal)
  | rawErr (e : JsVal) (resp : JsVal)

/-- Result of a `downloadFile` call: the issued GET (none when validation
failed first), whether the response stream was piped to a truncating write at
the local path, and the callback outcome.  Nothing ever deletes the written
file, so `wrote = true` means the file is left on disk whatever the
outcome. -/
structure DlResult where
  req : Option DlReq
  wrote : Bool
  outcome : DlOutcome

/-- The download transport, an external collaborator: either a
connection-level stream error (the response callback never fires) or a
delivered response stream that is piped to disk and then ends. -/
inductive DlTransport where
  | connError (e : JsVal)
  | response (resp : JsVal)

/-- Model of `downloadFile(data, callback)` (src/index.js lines 359-403).
All three of `bucketName`, `fileName` and `file` are required, checked before
the request is built.  On stream end with `verify === true`, the local
file's digest is recomputed (`sha1Out`, an `(err, sum)` pair from the
external digest collaborator) and compared against the response's
`x-bz-content-sha1` header: a digest error is passed through raw, a mismatch
fails with the "SHA1 sum mismatch." normalized error, a match succeeds.
Without `verify === true` the completion is reported as success and the
digest collaborator is never consulted. -/
def Session.downloadFile (st : Session) (data : JsVal) (net : DlTransport)
    (sha1Out : JsVal × JsVal) : Except String DlResult := do
  let hasBN ← jsIn "bucketName" data
  let hasFN ← jsIn "fileName" data
  let hasF ← jsIn "file" data
  if !hasBN || !hasFN || !hasF then do
    let e ← b2Error (.str "Missing required data. \x7b bucketName, fileName, file \x7d")
    .ok { req := none, wrote := false, outcome := .fail e (.obj []) }
  else do
    let host ← match st.downloadUrl with
      | .str s => Except.ok (s.drop 8)
      | _ => Except.error "TypeError"
    let bn ← data.get? "bucketName"
    let fn ← data.get? "fileName"
    let req : DlReq :=
      { host := host, path := "/file/" ++ bn.toStr ++ "/" ++ fn.toStr,
        authorization := st.authorizationToken }
    match net with
    | .connError _ => do
      let e ← b2Error (.obj [])
      .ok { req := some req, wrote := false, outcome := .fail e (.obj []) }
    | .response resp => do
      let hasV ← jsIn "verify" data
      let v ← data.get? "verify"
      if hasV && jsStrictEq v (.bool true) then do
        let (serr, sum) := sha1Out
        if serr.truthy then .ok { req := some req, wrote := true, outcome := .rawErr serr resp }
        else do
          let hdrs ← resp.get? "headers"
          let hv ← hdrs.get? "x-bz-content-sha1"
          if !(jsStrictEq sum hv) then do
            let e ← b2Error (.str "SHA1 sum mismatch.")
            .ok { req := some req, wrote := true, outcome := .fail e resp }
          else .ok { req := some req, wrote := true, outcome := .ok resp }
      else .ok { req := some req, wrote := true, outcome := .ok resp }

/-! ### Concrete fixtures used by witnesses and counterexamples -/

/-- A defaulted request wrapper as installed by a successful authorize. -/
def rqd : ReqDefaults :=
  { baseUrl := "https://api100.example.com/b2api/v1/", authToken := .str "sessTok" }

/-- An authorized session, as left behind by a successful authorize call. -/
def stAuth : Session :=
  { authorized := true, accountId := .str "acct1", applicationKey := .str "key1",
    apiUrl := .str "https://api100.example.com", authorizationToken := .str "sessTok",
    downloadUrl := .str "https://f100.example.com", minimumPartSize := .num 100000000,
    request := some rqd }

/-- A 200 transport outcome carrying the given JSON body. -/
def ok200 (b : JsVal) : TrOut :=
  { err := .null, resp := .obj [("statusCode", .num 200), ("body", b)], body := b }

/-- A 503 "service busy" transport outcome with a well-formed error body. -/
def busy503 : TrOut :=
  { err := .null,
    resp := .obj [("statusCode", .num 503),
      ("body", .obj [("status", .num 503), ("code", .str "service_unavailable"),
                     ("message", .str "busy")])],
    body := .obj [("status", .num 503), ("code", .str "service_unavailable"),
                  ("message", .str "busy")] }

/-- The upload endpoint body a successful `getUploadUrl` returns. -/
def epBody : JsVal :=
  .obj [("uploadUrl", .str "https://pod.example.com/upload/b1"),
        ("authorizationToken", .str "upTok")]

/-- A transport answering every call with a 200 and the upload endpoint body
(only the single `getUploadUrl` preparation call is issued through it). -/
def trUpload : Transport := fun _ => ok200 epBody

/-- An upload request object: bucket, local path and remote name, no `retry`
and no `contentType` field. -/
def upData : JsVal :=
  .obj [("bucketId", .str "b1"), ("file", .str "/tmp/f.txt"), ("fileName", .str "f.txt")]

/-- The upload request object with a caller-supplied `retry` count. -/
def upDataRetry : JsVal :=
  .obj [("bucketId", .str "b1"), ("file", .str "/tmp/f.txt"), ("fileName", .str "f.txt"),
        ("retry", .num 5)]

/-- The normalized error a 503 busy attempt produces. -/
def e503 : NormalizedError :=
  { status := .num 503, code := .str "service_unavailable", message := .str "busy",
    requestObject := .obj [("statusCode", .num 503),
      ("body", .obj [("status", .num 503), ("code", .str "service_unavailable"),
                     ("message", .str "busy")])] }

/-- A freshly constructed, unauthorized session (what `new b2({...})`
leaves behind). -/
def stFresh : Session :=
  { authorized := false, accountId := .str "acct1", applicationKey := .str "key1",
    apiUrl := .str "https://api.backblazeb2.example/b2api/v1", authorizationToken := .undefined,
    downloadUrl := .undefined, minimumPartSize := .undefined, request := none }

/-- A 401 response with a well-formed error body, as the authorize endpoint
returns for bad credentials. -/
def resp401 : JsVal :=
  .obj [("statusCode", .num 401),
        ("body", .obj [("status", .num 401), ("code", .str "unauthorized"),
                       ("message", .str "bad")])]

/-- The JSON body of a successful authorize response. -/
def authBody : JsVal :=
  .obj [("apiUrl", .str "https://api100.example.com"),
        ("authorizationToken", .str "sessTok"),
        ("downloadUrl", .str "https://f100.example.com"),
        ("minimumPartSize", .num 100000000)]

/-! ### Generic evaluation lemmas -/

/-- Bind on a successful `Except` computation. -/
theorem ebind_ok {ε α β : Type} (a : α) (f : α → Except ε β) :
    (Except.ok a >>= f : Except ε β) = f a := rfl

/-- Bind on a failed `Except` computation. -/
theorem ebind_err {ε α β : Type} (e : ε) (f : α → Except ε β) :
    ((Except.error e : Except ε α) >>= f) = .error e := rfl

/-- Property reads never throw on values other than null/undefined. -/
theorem get?_of_propSafe {v : JsVal} (k : String) (h : v.propSafe = true) :
    v.get? k = .ok (v.getF k) := by
  cases v <;> simp [JsVal.propSafe] at h ⊢ <;> rfl

/-- Strict equality of equal numbers. -/
theorem jsStrictEq_num_self (n : Int) : jsStrictEq (.num n) (.num n) = true := by
  simp [jsStrictEq]

/-- The filtering loop equals `List.filter` over the strict field comparison
when every element tolerates the property read. -/
theorem filterByField_eq_filter (key : String) (target : JsVal) (xs : List JsVal)
    (h : ∀ f ∈ xs, f.propSafe = true) :
    filterByField key target xs
      = .ok (xs.filter (fun f => jsStrictEq (f.getF key) target)) := by
  induction xs with
  | nil => rfl
  | cons f rest ih =>
    have hf : f.propSafe = true := h f (by simp)
    have hrest : ∀ g ∈ rest, g.propSafe = true := fun g hg => h g (by simp [hg])
    rw [filterByField, get?_of_propSafe key hf, ebind_ok, ih hrest, ebind_ok,
      List.filter_cons]

/-! ### Claim theorems -/

/-- C1.  The claim says a failed preparatory step (here: the SHA-1 digest
computation fails while the endpoint fetch and the stat succeed) makes
`uploadFile` fail overall with that first preparatory error and issue no
upload attempt.  The code instead swallows every preparatory error — each
parallel branch reports `callback(null, true)` — so the join proceeds, the
upload POST is attempted the full three times with an `undefined`
`X-Bz-Content-Sha1` header, and only the attempts' own 503 error is
surfaced; the digest error is never reported. -/
theorem c1_digest_failure_still_uploads :
    Session.uploadFile stAuth upData trUpload
      (.str "EACCES: permission denied", .undefined)
      (.null, .obj [("size", .num 10)])
      (fun _ => busy503) (fun v => .ok v)
    = .ok { prepCalls := [.post "/b2_get_upload_url" (.obj [("bucketId", .str "b1")])],
            options := { url := .str "https://pod.example.com/upload/b1",
                         authorizationToken := .str "upTok",
                         contentType := .str "b2/x-auto",
                         contentLength := .num 10,
                         fileNameHeader := .str "f.txt",
                         sha1Header := .undefined },
            attempts := 3, delays := [50, 100], outcome := .failure e503 } := rfl

/-- C2.  The claim says `maxRetryAttempts` is the request's `retry` field
when present and an integer.  In the code, line 259 evaluates
`(new Number).isInteger(data.retry)` whenever `retry` is present;
`isInteger` is a static method of the `Number` constructor and does not
exist on `Number.prototype`, so the whole `uploadFile` call throws a
TypeError before any preparation starts. -/
theorem c2_retry_field_throws :
    Session.uploadFile stAuth upDataRetry trUpload
      (.null, .str "3da541559918a808c2402bba5012f6c60b27661c")
      (.null, .obj [("size", .num 10)])
      (fun _ => busy503) (fun v => .ok v)
    = .error "TypeError" := rfl

/-- C4.  The claim says any failed HTTP interaction without a well-formed
object body yields the synthetic status-0 "application_error" value.  A
non-200 response whose parsed JSON body is the literal `null` passes the
`typeof data.body === "object"` validation (typeof null is "object"), so
`this.api` becomes null and the `finally` block's read `this.api.status`
throws an uncaught TypeError: no normalized error value is produced at
all. -/
theorem c4_null_body_throws :
    b2Error (.obj [("statusCode", .num 503), ("body", .null)]) = .error "TypeError" := rfl

/-- C9.  A `deleteFile` call missing `fileName` or `fileId`, a
`downloadFile` call missing `bucketName`, `fileName` or the local `file`
path, and a `getAuthToken` call missing `bucketId`, `fileNamePrefix` or
`duration`, each fail with the status-0 "application_error" validation
error carrying the operation's "Missing required ..." message, before any
network call is issued (the returned call trace is empty, and for
`downloadFile` no request is built and nothing is written), so the remote
state is unaffected. -/
theorem c9_missing_input_validation (st : Session) (data : JsVal) (tr : Transport)
    (net : DlTransport) (sha1Out : JsVal × JsVal) :
    (∀ hfn hfi, jsIn "fileName" data = .ok hfn → jsIn "fileId" data = .ok hfi →
      (hfn && hfi) = false →
      st.deleteFile data tr = .ok ([], .failure
        ⟨.num 0, .str "application_error",
         .str "Missing required input. \x7b fileName or fileId \x7d",
         .str "Missing required input. \x7b fileName or fileId \x7d"⟩)) ∧
    (∀ hbn hfn hf, jsIn "bucketName" data = .ok hbn → jsIn "fileName" data = .ok hfn →
      jsIn "file" data = .ok hf → (hbn && (hfn && hf)) = false →
      st.downloadFile data net sha1Out = .ok
        { req := none, wrote := false,
          outcome := DlOutcome.fail
            ⟨.num 0, .str "application_error",
             .str "Missing required data. \x7b bucketName, fileName, file \x7d",
             .str "Missing required data. \x7b bucketName, fileName, file \x7d"⟩ (.obj []) }) ∧
    (∀ hbi hfp hd, jsIn "bucketId" data = .ok hbi → jsIn "fileNamePrefix" data = .ok hfp →
      jsIn "duration" data = .ok hd → (hbi && (hfp && hd)) = false →
      st.getAuthToken data tr = .ok ([], .failure
        ⟨.num 0, .str "application_error",
         .str "Missing required data. \x7b bucketId, fileNamePrefix, duration \x7d",
         .str "Missing required data. \x7b bucketId, fileNamePrefix, duration \x7d"⟩)) := by
  refine ⟨?_, ?_, ?_⟩
  · intro hfn hfi h1 h2 h3
    unfold Session.deleteFile
    rw [h1, ebind_ok, h2, ebind_ok]
    have hc : (!hfn || !hfi) = true := by cases hfn <;> cases hfi <;> simp_all
    rw [hc]
    rfl
  · intro hbn hfn hf h1 h2 h3 h4
    unfold Session.downloadFile
    rw [h1, ebind_ok, h2, ebind_ok, h3, ebind_ok]
    have hc : (!hbn || !hfn || !hf) = true := by
      cases hbn <;> cases hfn <;> cases hf <;> simp_all
    rw [hc]
    rfl
  · intro hbi hfp hd h1 h2 h3 h4
    unfold Session.getAuthToken
    rw [h1, ebind_ok, h2, ebind_ok, h3, ebind_ok]
    have hc : (!hbi || !hfp || !hd) = true := by
      cases hbi <;> cases hfp <;> cases hd <;> simp_all
    rw [hc]
    rfl

/-- C9 witness: the three validation failures at concrete inputs, each via
the theorem with its hypotheses discharged. -/
theorem c9_missing_input_validation_witness :
    Session.deleteFile stAuth (.obj [("fileName", .str "f.txt")]) trUpload
      = .ok ([], .failure
        ⟨.num 0, .str "application_error",
         .str "Missing required input. \x7b fileName or fileId \x7d",
         .str "Missing required input. \x7b fileName or fileId \x7d"⟩) ∧
    Session.downloadFile stAuth (.obj [("bucketName", .str "bkt")])
      (.response (.obj [])) (.null, .null)
      = .ok { req := none, wrote := false,
              outcome := DlOutcome.fail
                ⟨.num 0, .str "application_error",
                 .str "Missing required data. \x7b bucketName, fileName, file \x7d",
                 .str "Missing required data. \x7b bucketName, fileName, file \x7d"⟩ (.obj []) } ∧
    Session.getAuthToken stAuth (.obj [("bucketId", .str "b1")]) trUpload
      = .ok ([], .failure
        ⟨.num 0, .str "application_error",
         .str "Missing required data. \x7b bucketId, fileNamePrefix, duration \x7d",
         .str "Missing required data. \x7b bucketId, fileNamePrefix, duration \x7d"⟩) :=
  ⟨(c9_missing_input_validation stAuth (.obj [("fileName", .str "f.txt")]) trUpload
      (.response (.obj [])) (.null, .null)).1 true false rfl rfl rfl,
   (c9_missing_input_validation stAuth (.obj [("bucketName", .str "bkt")]) trUpload
      (.response (.obj [])) (.null, .null)).2.1 true false false rfl rfl rfl rfl,
   (c9_missing_input_validation stAuth (.obj [("bucketId", .str "b1")]) trUpload
      (.response (.obj [])) (.null, .null)).2.2 true false false rfl rfl rfl rfl⟩

/-- Values tolerated by the `in` operator also tolerate property reads. -/
theorem propSafe_of_jsIn_ok {data : JsVal} {k : String} {b : Bool}
    (h : jsIn k data = .ok b) : data.propSafe = true := by
  cases data <;> simp [jsIn, JsVal.propSafe] at h ⊢

/-- Strict equality on two booleans. -/
theorem jsStrictEq_bool (a b : Bool) : jsStrictEq (.bool a) (.bool b) = (a == b) := rfl

/-- `b2Error` applied to a plain string message. -/
theorem b2Error_str (s : String) :
    b2Error (.str s) = .ok ⟨.num 0, .str "application_error", .str s, .str s⟩ := rfl

/-- C8.  With `verify === true` and a successful post-download digest
recomputation, `downloadFile` compares the recomputed digest against the
response's `x-bz-content-sha1` header after the stream completes: on a
mismatch it fails with the status-0 "SHA1 sum mismatch." integrity error
while the file remains written at the local path (`wrote = true`, nothing
deletes it); on a match it succeeds.  Without `verify === true` the
completion is reported as success whatever the digest collaborator would
return (it is never consulted). -/
theorem c8_download_verify (st : Session) (data resp : JsVal) (dl : String)
    (hdl : st.downloadUrl = .str dl)
    (h1 : jsIn "bucketName" data = .ok true)
    (h2 : jsIn "fileName" data = .ok true)
    (h3 : jsIn "file" data = .ok true) :
    (∀ sum hdrs hv, jsIn "verify" data = .ok true → data.get? "verify" = .ok (.bool true) →
      resp.get? "headers" = .ok hdrs → hdrs.get? "x-bz-content-sha1" = .ok hv →
      jsStrictEq sum hv = false →
      st.downloadFile data (.response resp) (.null, sum) = .ok
        { req := some { host := dl.drop 8,
                        path := "/file/" ++ (data.getF "bucketName").toStr ++ "/"
                          ++ (data.getF "fileName").toStr,
                        authorization := st.authorizationToken },
          wrote := true,
          outcome := DlOutcome.fail
            ⟨.num 0, .str "application_error", .str "SHA1 sum mismatch.",
             .str "SHA1 sum mismatch."⟩ resp }) ∧
    (∀ sum hdrs hv, jsIn "verify" data = .ok true → data.get? "verify" = .ok (.bool true) →
      resp.get? "headers" = .ok hdrs → hdrs.get? "x-bz-content-sha1" = .ok hv →
      jsStrictEq sum hv = true →
      st.downloadFile data (.response resp) (.null, sum) = .ok
        { req := some { host := dl.drop 8,
                        path := "/file/" ++ (data.getF "bucketName").toStr ++ "/"
                          ++ (data.getF "fileName").toStr,
                        authorization := st.authorizationToken },
          wrote := true, outcome := DlOutcome.ok resp }) ∧
    (∀ hveri v, jsIn "verify" data = .ok hveri → data.get? "verify" = .ok v →
      (hveri && jsStrictEq v (.bool true)) = false → ∀ sha1Out,
      st.downloadFile data (.response resp) sha1Out = .ok
        { req := some { host := dl.drop 8,
                        path := "/file/" ++ (data.getF "bucketName").toStr ++ "/"
                          ++ (data.getF "fileName").toStr,
                        authorization := st.authorizationToken },
          wrote := true, outcome := DlOutcome.ok resp }) := by
  have hps : data.propSafe = true := propSafe_of_jsIn_ok h1
  refine ⟨?_, ?_, ?_⟩
  · intro sum hdrs hv hv0 hv1 hh hx hne
    simp [Session.downloadFile, ebind_ok, h1, h2, h3, hdl, hv0, hv1, hh, hx, hne,
      get?_of_propSafe "bucketName" hps, get?_of_propSafe "fileName" hps,
      jsStrictEq_bool, b2Error_str, JsVal.truthy]
  · intro sum hdrs hv hv0 hv1 hh hx heq
    simp [Session.downloadFile, ebind_ok, h1, h2, h3, hdl, hv0, hv1, hh, hx, heq,
      get?_of_propSafe "bucketName" hps, get?_of_propSafe "fileName" hps,
      jsStrictEq_bool, JsVal.truthy]
  · intro hveri v hv0 hv1 hcond sha1Out
    rcases Bool.and_eq_false_iff.mp hcond with hc | hc
    · simp [Session.downloadFile, ebind_ok, h1, h2, h3, hdl, hv0, hv1, hc,
        get?_of_propSafe "bucketName" hps, get?_of_propSafe "fileName" hps]
    · simp [Session.downloadFile, ebind_ok, h1, h2, h3, hdl, hv0, hv1, hc,
        get?_of_propSafe "bucketName" hps, get?_of_propSafe "fileName" hps]

/-- C8 witness: a concrete verified download with mismatching digests fails
with the integrity error, with matching digests succeeds, and without
`verify` succeeds regardless of the digest collaborator. -/
theorem c8_download_verify_witness :
    Session.downloadFile stAuth
      (.obj [("bucketName", .str "bkt"), ("fileName", .str "img.png"),
             ("file", .str "/tmp/img.png"), ("verify", .bool true)])
      (.response (.obj [("statusCode", .num 200),
        ("headers", .obj [("x-bz-content-sha1", .str "d1")])]))
      (.null, .str "d2")
      = .ok { req := some { host := "f100.example.com", path := "/file/bkt/img.png",
                            authorization := .str "sessTok" },
              wrote := true,
              outcome := DlOutcome.fail
                ⟨.num 0, .str "application_error", .str "SHA1 sum mismatch.",
                 .str "SHA1 sum mismatch."⟩
                (.obj [("statusCode", .num 200),
                  ("headers", .obj [("x-bz-content-sha1", .str "d1")])]) } ∧
    Session.downloadFile stAuth
      (.obj [("bucketName", .str "bkt"), ("fileName", .str "img.png"),
             ("file", .str "/tmp/img.png"), ("verify", .bool true)])
      (.response (.obj [("statusCode", .num 200),
        ("headers", .obj [("x-bz-content-sha1", .str "d1")])]))
      (.null, .str "d1")
      = .ok { req := some { host := "f100.example.com", path := "/file/bkt/img.png",
                            authorization := .str "sessTok" },
              wrote := true,
              outcome := DlOutcome.ok (.obj [("statusCode", .num 200),
                ("headers", .obj [("x-bz-content-sha1", .str "d1")])]) } ∧
    Session.downloadFile stAuth
      (.obj [("bucketName", .str "bkt"), ("fileName", .str "img.png"),
             ("file", .str "/tmp/img.png")])
      (.response (.obj [("statusCode", .num 200),
        ("headers", .obj [("x-bz-content-sha1", .str "d1")])]))
      (.str "digest-error", .undefined)
      = .ok { req := some { host := "f100.example.com", path := "/file/bkt/img.png",
                            authorization := .str "sessTok" },
              wrote := true,
              outcome := DlOutcome.ok (.obj [("statusCode", .num 200),
                ("headers", .obj [("x-bz-content-sha1", .str "d1")])]) } :=
  ⟨(c8_download_verify stAuth
      (.obj [("bucketName", .str "bkt"), ("fileName", .str "img.png"),
             ("file", .str "/tmp/img.png"), ("verify", .bool true)])
      (.obj [("statusCode", .num 200),
        ("headers", .obj [("x-bz-content-sha1", .str "d1")])])
      "https://f100.example.com" rfl rfl rfl rfl).1
      (.str "d2") (.obj [("x-bz-content-sha1", .str "d1")]) (.str "d1") rfl rfl rfl rfl rfl,
   (c8_download_verify stAuth
      (.obj [("bucketName", .str "bkt"), ("fileName", .str "img.png"),
             ("file", .str "/tmp/img.png"), ("verify", .bool true)])
      (.obj [("statusCode", .num 200),
        ("headers", .obj [("x-bz-content-sha1", .str "d1")])])
      "https://f100.example.com" rfl rfl rfl rfl).2.1
      (.str "d1") (.obj [("x-bz-content-sha1", .str "d1")]) (.str "d1") rfl rfl rfl rfl rfl,
   (c8_download_verify stAuth
      (.obj [("bucketName", .str "bkt"), ("fileName", .str "img.png"),
             ("file", .str "/tmp/img.png")])
      (.obj [("statusCode", .num 200),
        ("headers", .obj [("x-bz-content-sha1", .str "d1")])])
      "https://f100.example.com" rfl rfl rfl rfl).2.2
      false .undefined rfl rfl rfl (.str "digest-error", .undefined)⟩

/-- C7.  On a transport failure (truthy `err`) or a non-200 status,
`authorize` hands the normalized error to the callback (or returns silently
when `b2Error` itself throws, the `finally \x7b return \x7d` swallowing it)
and the session is returned exactly as it was — in particular `authorized`
stays whatever it was, false for a fresh session.  On a 200 response whose
body tolerates property reads, all four derived fields, the defaulted
request wrapper and `authorized = true` are installed together in one
step. -/
theorem c7_authorize_atomic (st : Session) (err resp body : JsVal) :
    (err.truthy = true →
      (∀ e, b2Error resp = .ok e → st.authorize err resp body = .ok (st, .failure e)) ∧
      (∀ m, b2Error resp = .error m → st.authorize err resp body = .ok (st, .silentReturn))) ∧
    (∀ sc, err.truthy = false → resp.get? "statusCode" = .ok sc →
      jsStrictEq sc (.num 200) = false →
      (∀ e, b2Error resp = .ok e → st.authorize err resp body = .ok (st, .failure e)) ∧
      (∀ m, b2Error resp = .error m → st.authorize err resp body = .ok (st, .silentReturn))) ∧
    (err.truthy = false → resp.get? "statusCode" = .ok (.num 200) → body.propSafe = true →
      st.authorize err resp body = .ok
        ({ st with authorized := true,
                   apiUrl := body.getF "apiUrl",
                   authorizationToken := body.getF "authorizationToken",
                   downloadUrl := body.getF "downloadUrl",
                   minimumPartSize := body.getF "minimumPartSize",
                   request := some { baseUrl := (body.getF "apiUrl").toStr ++ "/b2api/v1/",
                                     authToken := body.getF "authorizationToken" } },
         .success body)) := by
  refine ⟨?_, ?_, ?_⟩
  · intro herr
    constructor
    · intro e he
      simp [Session.authorize, herr, he]
    · intro m hm
      simp [Session.authorize, herr, hm]
  · intro sc herr hsc hne
    constructor
    · intro e he
      simp [Session.authorize, herr, hsc, hne, he]
    · intro m hm
      simp [Session.authorize, herr, hsc, hne, hm]
  · intro herr hsc hps
    cases body <;> simp [JsVal.propSafe] at hps <;>
      simp [Session.authorize, herr, hsc, jsStrictEq_num_self]

/-- C7 witness: on a concrete 401 the fresh session is returned untouched
with the normalized 401 error, and on a concrete 200 the fully updated
authorized session is installed in one step. -/
theorem c7_authorize_atomic_witness :
    Session.authorize stFresh .null resp401 .undefined
      = .ok (stFresh, .failure ⟨.num 401, .str "unauthorized", .str "bad", resp401⟩) ∧
    Session.authorize stFresh .null
      (.obj [("statusCode", .num 200), ("body", authBody)]) authBody
      = .ok (stAuth, .success authBody) :=
  ⟨((c7_authorize_atomic stFresh .null resp401 .undefined).2.1 (.num 401) rfl rfl rfl).1
      ⟨.num 401, .str "unauthorized", .str "bad", resp401⟩ rfl,
   (c7_authorize_atomic stFresh .null
      (.obj [("statusCode", .num 200), ("body", authBody)]) authBody).2.2 rfl rfl rfl⟩

/-- A `jsIn` answer of `true` forces an object operand. -/
theorem obj_of_jsIn_true {data : JsVal} {k : String}
    (h : jsIn k data = .ok true) : ∃ fs, data = .obj fs := by
  cases data <;> simp [jsIn] at h ⊢

/-- Property reads on objects never throw. -/
theorem get?_obj (fs : List (String × JsVal)) (k : String) :
    (JsVal.obj fs).get? k = .ok ((JsVal.obj fs).getF k) := rfl

/-- Updating a key makes it the one found. -/
theorem find?_setAssoc_same (k : String) (x : JsVal) (fs : List (String × JsVal)) :
    List.find? (fun p => p.1 == k) (setAssoc k x fs) = some (k, x) := by
  induction fs with
  | nil => simp [setAssoc]
  | cons p rest ih =>
    by_cases h : p.1 == k
    · simp [setAssoc, h]
    · simp [setAssoc, h, ih]

/-- Updating one key leaves lookups of another unchanged. -/
theorem find?_setAssoc_ne (k k2 : String) (x : JsVal) (fs : List (String × JsVal))
    (h : ¬ k = k2) :
    List.find? (fun p => p.1 == k2) (setAssoc k x fs)
      = List.find? (fun p => p.1 == k2) fs := by
  have hke : (k == k2) = false := by simp [h]
  induction fs with
  | nil => simp [setAssoc, List.find?, hke]
  | cons p rest ih =>
    by_cases hpk : p.1 == k
    · have hp2 : (p.1 == k2) = false := by
        simp only [beq_iff_eq] at hpk ⊢
        simp [hpk, h]
      simp [setAssoc, hpk, List.find?, hp2, h]
    · simp [setAssoc, hpk, List.find?, ih]

/-- Reading back the key just assigned. -/
theorem getF_set_same (fs : List (String × JsVal)) (k : String) (x : JsVal) :
    (((JsVal.obj fs).set k x)).getF k = x := by
  simp [JsVal.set, JsVal.getF, find?_setAssoc_same]

/-- Reading a different key after an assignment. -/
theorem getF_set_ne (fs : List (String × JsVal)) (k k2 : String) (x : JsVal)
    (h : ¬ k = k2) :
    (((JsVal.obj fs).set k x)).getF k2 = (JsVal.obj fs).getF k2 := by
  simp [JsVal.set, JsVal.getF, find?_setAssoc_ne k k2 x fs h]

/-- Assignments keep the value an object. -/
theorem set_obj (fs : List (String × JsVal)) (k : String) (x : JsVal) :
    (JsVal.obj fs).set k x = .obj (setAssoc k x fs) := rfl

/-- C5.  For a `listFileVersions` call with `strict = true` and a string
`startFileName`, on a 200 page whose `files` entries tolerate property
reads, the returned `files` list is exactly the page entries whose
`fileName` is strictly (character-for-character) equal to the
`startFileName`, while `nextFileId` and `nextFileName` are copied from the
response body unfiltered and unmodified. -/
theorem c5_strict_filters_exact (st : Session) (rq : ReqDefaults) (data : JsVal)
    (tr : Transport) (s : String) (resp body nfi nfn : JsVal) (files : List JsVal)
    (bSFI bMFC : Bool)
    (hreq : st.request = some rq)
    (hin : jsIn "startFileName" data = .ok true)
    (hsfn : data.get? "startFileName" = .ok (.str s))
    (hSFI : jsIn "startFileId" data = .ok bSFI)
    (hMFC : jsIn "maxFileCount" data = .ok bMFC)
    (hinS : jsIn "strict" data = .ok true)
    (hstrict : data.get? "strict" = .ok (.bool true))
    (htr : ∀ c, tr c = ⟨.null, resp, body⟩)
    (hsc : resp.get? "statusCode" = .ok (.num 200))
    (hfiles : body.get? "files" = .ok (.arr files))
    (hnfi : body.get? "nextFileId" = .ok nfi)
    (hnfn : body.get? "nextFileName" = .ok nfn)
    (hsafe : ∀ f ∈ files, f.propSafe = true) :
    (st.listFileVersions data tr).map Prod.snd =
      .ok (.success (.obj
        [("files", .arr (files.filter fun f => jsStrictEq (f.getF "fileName") (.str s))),
         ("nextFileId", nfi), ("nextFileName", nfn)])) := by
  have hps : data.propSafe = true := propSafe_of_jsIn_ok hin
  cases bSFI <;> cases bMFC <;>
    simp [Session.listFileVersions, hreq, ebind_ok, hin, hsfn, hSFI, hMFC, hinS, hstrict,
      get?_of_propSafe "bucketId" hps, get?_of_propSafe "startFileId" hps,
      get?_of_propSafe "maxFileCount" hps, htr, checkResp, hsc, jsStrictEq_num_self,
      JsVal.truthy, jsArr, hfiles, hnfi, hnfn, JsVal.set, setAssoc,
      JsVal.getF, List.find?, get?_obj,
      filterByField_eq_filter "fileName" (.str s) files hsafe, Except.map]

/-- C5 witness: a concrete strict listing for "a.txt" over a page holding
"a.txt" and "a.txt.bak" returns only the exact match, with both pagination
cursors copied through. -/
theorem c5_strict_filters_exact_witness :
    (Session.listFileVersions stAuth
      (.obj [("bucketId", .str "b1"), ("startFileName", .str "a.txt"),
             ("strict", .bool true)])
      (fun _ =>
        { err := .null,
          resp := .obj [("statusCode", .num 200),
            ("body", .obj [("files", .arr
                [.obj [("fileName", .str "a.txt"), ("fileId", .str "f1")],
                 .obj [("fileName", .str "a.txt.bak"), ("fileId", .str "f2")]]),
              ("nextFileId", .str "nid"), ("nextFileName", .str "nname")])],
          body := .obj [("files", .arr
              [.obj [("fileName", .str "a.txt"), ("fileId", .str "f1")],
               .obj [("fileName", .str "a.txt.bak"), ("fileId", .str "f2")]]),
            ("nextFileId", .str "nid"), ("nextFileName", .str "nname")] })).map Prod.snd
    = .ok (.success (.obj
        [("files", .arr [.obj [("fileName", .str "a.txt"), ("fileId", .str "f1")]]),
         ("nextFileId", .str "nid"), ("nextFileName", .str "nname")])) :=
  c5_strict_filters_exact stAuth rqd
    (.obj [("bucketId", .str "b1"), ("startFileName", .str "a.txt"),
           ("strict", .bool true)])
    (fun _ =>
      { err := .null,
        resp := .obj [("statusCode", .num 200),
          ("body", .obj [("files", .arr
              [.obj [("fileName", .str "a.txt"), ("fileId", .str "f1")],
               .obj [("fileName", .str "a.txt.bak"), ("fileId", .str "f2")]]),
            ("nextFileId", .str "nid"), ("nextFileName", .str "nname")])],
        body := .obj [("files", .arr
            [.obj [("fileName", .str "a.txt"), ("fileId", .str "f1")],
             .obj [("fileName", .str "a.txt.bak"), ("fileId", .str "f2")]]),
          ("nextFileId", .str "nid"), ("nextFileName", .str "nname")] })
    "a.txt"
    (.obj [("statusCode", .num 200),
      ("body", .obj [("files", .arr
          [.obj [("fileName", .str "a.txt"), ("fileId", .str "f1")],
           .obj [("fileName", .str "a.txt.bak"), ("fileId", .str "f2")]]),
        ("nextFileId", .str "nid"), ("nextFileName", .str "nname")])])
    (.obj [("files", .arr
        [.obj [("fileName", .str "a.txt"), ("fileId", .str "f1")],
         .obj [("fileName", .str "a.txt.bak"), ("fileId", .str "f2")]]),
      ("nextFileId", .str "nid"), ("nextFileName", .str "nname")])
    (.str "nid") (.str "nname")
    [.obj [("fileName", .str "a.txt"), ("fileId", .str "f1")],
     .obj [("fileName", .str "a.txt.bak"), ("fileId", .str "f2")]]
    false false rfl rfl rfl rfl rfl rfl rfl (fun _ => rfl) rfl rfl rfl rfl (by decide)

/-- C10 counterexample: with `strict = true` and no `startFileName`, a page
whose single entry has no `fileName` property is NOT filtered out — the
comparison is `undefined === undefined`, which holds — so the returned files
list is that entry, not the empty list the claim requires "regardless of the
page's contents". -/
theorem c10_strict_no_start_counterexample :
    (Session.listFileVersions stAuth
      (.obj [("bucketId", .str "b1"), ("strict", .bool true)])
      (fun _ =>
        { err := .null,
          resp := .obj [("statusCode", .num 200),
            ("body", .obj [("files", .arr [.obj []]),
              ("nextFileId", .str "nid"), ("nextFileName", .str "nname")])],
          body := .obj [("files", .arr [.obj []]),
            ("nextFileId", .str "nid"), ("nextFileName", .str "nname")] })).map Prod.snd
    = .ok (.success (.obj
        [("files", .arr [.obj []]),
         ("nextFileId", .str "nid"), ("nextFileName", .str "nname")]))
    ∧ ([JsVal.obj []] : List JsVal) ≠ [] :=
  ⟨rfl, by simp⟩

/-- C10 amended.  With `strict = true` and no `startFileName` supplied,
`formData.startFileName` is `undefined`, so the returned files list keeps
exactly the page entries whose own `fileName` read is `undefined` (absent
property) — in particular it is empty whenever every entry carries a
`fileName` value — while `nextFileId` and `nextFileName` are still returned
from the response. -/
theorem c10_strict_no_start_amended (st : Session) (rq : ReqDefaults) (data : JsVal)
    (tr : Transport) (resp body nfi nfn : JsVal) (files : List JsVal)
    (bSFI bMFC : Bool)
    (hreq : st.request = some rq)
    (hin : jsIn "startFileName" data = .ok false)
    (hSFI : jsIn "startFileId" data = .ok bSFI)
    (hMFC : jsIn "maxFileCount" data = .ok bMFC)
    (hinS : jsIn "strict" data = .ok true)
    (hstrict : data.get? "strict" = .ok (.bool true))
    (htr : ∀ c, tr c = ⟨.null, resp, body⟩)
    (hsc : resp.get? "statusCode" = .ok (.num 200))
    (hfiles : body.get? "files" = .ok (.arr files))
    (hnfi : body.get? "nextFileId" = .ok nfi)
    (hnfn : body.get? "nextFileName" = .ok nfn)
    (hsafe : ∀ f ∈ files, f.propSafe = true) :
    (st.listFileVersions data tr).map Prod.snd =
      .ok (.success (.obj
        [("files", .arr (files.filter fun f => jsStrictEq (f.getF "fileName") .undefined)),
         ("nextFileId", nfi), ("nextFileName", nfn)])) := by
  have hps : data.propSafe = true := propSafe_of_jsIn_ok hin
  cases bSFI <;> cases bMFC <;>
    simp [Session.listFileVersions, hreq, ebind_ok, hin, hSFI, hMFC, hinS, hstrict,
      get?_of_propSafe "bucketId" hps, get?_of_propSafe "startFileName" hps,
      get?_of_propSafe "startFileId" hps, get?_of_propSafe "maxFileCount" hps,
      htr, checkResp, hsc, jsStrictEq_num_self,
      JsVal.truthy, jsArr, hfiles, hnfi, hnfn, JsVal.set, setAssoc,
      JsVal.getF, List.find?, get?_obj,
      filterByField_eq_filter "fileName" .undefined files hsafe, Except.map]

/-- C10 amended witness: with entries all carrying `fileName` strings the
returned files list is empty while the cursors are still returned. -/
theorem c10_strict_no_start_amended_witness :
    (Session.listFileVersions stAuth
      (.obj [("bucketId", .str "b1"), ("strict", .bool true)])
      (fun _ =>
        { err := .null,
          resp := .obj [("statusCode", .num 200),
            ("body", .obj [("files", .arr [.obj [("fileName", .str "x.txt")]]),
              ("nextFileId", .str "nid"), ("nextFileName", .str "nname")])],
          body := .obj [("files", .arr [.obj [("fileName", .str "x.txt")]]),
            ("nextFileId", .str "nid"), ("nextFileName", .str "nname")] })).map Prod.snd
    = .ok (.success (.obj
        [("files", .arr []),
         ("nextFileId", .str "nid"), ("nextFileName", .str "nname")])) :=
  c10_strict_no_start_amended stAuth rqd
    (.obj [("bucketId", .str "b1"), ("strict", .bool true)])
    (fun _ =>
      { err := .null,
        resp := .obj [("statusCode", .num 200),
          ("body", .obj [("files", .arr [.obj [("fileName", .str "x.txt")]]),
            ("nextFileId", .str "nid"), ("nextFileName", .str "nname")])],
        body := .obj [("files", .arr [.obj [("fileName", .str "x.txt")]]),
          ("nextFileId", .str "nid"), ("nextFileName", .str "nname")] })
    (.obj [("statusCode", .num 200),
      ("body", .obj [("files", .arr [.obj [("fileName", .str "x.txt")]]),
        ("nextFileId", .str "nid"), ("nextFileName", .str "nname")])])
    (.obj [("files", .arr [.obj [("fileName", .str "x.txt")]]),
      ("nextFileId", .str "nid"), ("nextFileName", .str "nname")])
    (.str "nid") (.str "nname")
    [.obj [("fileName", .str "x.txt")]]
    false false rfl rfl rfl rfl rfl rfl (fun _ => rfl) rfl rfl rfl rfl (by decide)

/-- Every session an `authorize` call can leave behind is either the call's
input session unchanged or a session with `authorized = true`. -/
theorem authorize_states (st : Session) (err resp body : JsVal) :
    (∀ st2 r, st.authorize err resp body = .ok (st2, r) →
      st2 = st ∨ st2.authorized = true) ∧
    (∀ m st2, st.authorize err resp body = .error (m, st2) →
      st2 = st ∨ st2.authorized = true) := by
  constructor
  · intro st2 r h
    unfold Session.authorize at h
    repeat' split at h
    all_goals simp only [Except.ok.injEq, Except.error.injEq, Prod.mk.injEq,
      reduceCtorEq, false_and] at h
    all_goals first
      | exact h.elim
      | exact Or.inl h.1.symm
      | exact Or.inl h.2.symm
      | exact Or.inr (by rw [← h.1])
      | exact Or.inr (by rw [← h.2])
  · intro m st2 h
    unfold Session.authorize at h
    repeat' split at h
    all_goals simp only [Except.ok.injEq, Except.error.injEq, Prod.mk.injEq,
      reduceCtorEq, false_and] at h
    all_goals first
      | exact h.elim
      | exact Or.inl h.1.symm
      | exact Or.inl h.2.symm
      | exact Or.inr (by rw [← h.1])
      | exact Or.inr (by rw [← h.2])

/-- C3 counterexample: on a freshly constructed session (`authorized =
false`, `this.request` undefined), `listBuckets` does not fail with any
error value delivered to the callback — no `PreconditionError` exists
anywhere in the code — it throws a TypeError (reading `.get` of the
undefined `this.request`), before any network call. -/
theorem c3_unauthorized_counterexample :
    b2mk (.obj [("accountId", .str "acct1"), ("applicationKey", .str "key1")])
      (.str "https://api.backblazeb2.example/b2api/v1") = .ok stFresh ∧
    Session.listBuckets stFresh .undefined trUpload = .error "TypeError" :=
  ⟨rfl, rfl⟩

/-- C3 amended.  Every resource operation on a session with `authorized =
false` (and hence, for any session the constructor and authorize can
produce, `request = none`) never issues a network call — its result does not
depend on the transport because the evaluation throws first — but the
failure is a thrown TypeError, not a `PreconditionError` handed to the
callback (`deleteFile`/`getAuthToken` only reach the throw once their own
input validation passes).  The first two conjuncts justify the
`request = none` hypothesis: the constructor creates sessions with
`authorized = false` and `request = none`, and an authorize call only ever
leaves the session unchanged or authorized. -/
theorem c3_unauthorized_ops_throw :
    (∀ object conf st0, b2mk object conf = .ok st0 →
      st0.authorized = false ∧ st0.request = none) ∧
    (∀ (st : Session) (err resp body : JsVal),
      (st.authorized = false → st.request = none) →
      (∀ st2 r, st.authorize err resp body = .ok (st2, r) →
        (st2.authorized = false → st2.request = none)) ∧
      (∀ m st2, st.authorize err resp body = .error (m, st2) →
        (st2.authorized = false → st2.request = none))) ∧
    (∀ st : Session, st.authorized = false → st.request = none →
      (∀ input tr, st.listBuckets input tr = .error "TypeError") ∧
      (∀ data tr, st.createBucket data tr = .error "TypeError") ∧
      (∀ data tr, st.listFileNames data tr = .error "TypeError") ∧
      (∀ data tr, st.listFileVersions data tr = .error "TypeError") ∧
      (∀ data tr, st.getFileInfo data tr = .error "TypeError") ∧
      (∀ bucketId tr, st.getUploadUrl bucketId tr = .error "TypeError") ∧
      (∀ data tr, jsIn "fileName" data = .ok true → jsIn "fileId" data = .ok true →
        st.deleteFile data tr = .error "TypeError") ∧
      (∀ data tr, jsIn "bucketId" data = .ok true → jsIn "fileNamePrefix" data = .ok true →
        jsIn "duration" data = .ok true → st.getAuthToken data tr = .error "TypeError")) := by
  refine ⟨?_, ?_, ?_⟩
  · intro object conf st0 h
    cases object <;> simp only [b2mk, JsVal.get?, ebind_ok, ebind_err,
      Except.ok.injEq, reduceCtorEq] at h
    all_goals first
      | exact h.elim
      | exact ⟨by rw [← h], by rw [← h]⟩
  · intro st err resp body hinv
    constructor
    · intro st2 r h
      rcases (authorize_states st err resp body).1 st2 r h with rfl | ha
      · exact hinv
      · intro hfalse; rw [ha] at hfalse; cases hfalse
    · intro m st2 h
      rcases (authorize_states st err resp body).2 m st2 h with rfl | ha
      · exact hinv
      · intro hfalse; rw [ha] at hfalse; cases hfalse
  · intro st _ hreq
    have hlb : ∀ input tr, st.listBuckets input tr = .error "TypeError" := by
      intro input tr
      simp [Session.listBuckets, hreq]
    have hlfv : ∀ data tr, st.listFileVersions data tr = .error "TypeError" := by
      intro data tr
      cases data <;>
        simp [Session.listFileVersions, hreq, jsIn, JsVal.get?, ebind_ok, ebind_err]
    refine ⟨hlb, ?_, ?_, hlfv, ?_, ?_, ?_, ?_⟩
    · intro data tr
      cases data <;> simp [Session.createBucket, hreq, jsIn, JsVal.get?, ebind_ok, ebind_err]
    · intro data tr
      cases data <;> simp [Session.listFileNames, hreq, jsIn, JsVal.get?, ebind_ok, ebind_err]
    · intro data tr
      have hfuel : ∀ fuel data tr,
          Session.getFileInfoFuel st tr (fuel + 1) data = .error "TypeError" := by
        intro fuel data tr
        cases data with
        | obj fs =>
          by_cases hFN : fs.any (fun p => p.1 == "fileName") <;>
            by_cases hBN : fs.any (fun p => p.1 == "bucketName") <;>
            by_cases hBI : fs.any (fun p => p.1 == "bucketId") <;>
            simp [Session.getFileInfoFuel, jsIn, JsVal.get?, ebind_ok, ebind_err, hFN, hBN, hBI,
              hlb, hlfv, hreq]
        | _ => simp [Session.getFileInfoFuel, jsIn, hreq, ebind_ok, ebind_err, JsVal.get?]
      exact hfuel 2 data tr
    · intro bucketId tr
      simp [Session.getUploadUrl, hreq]
    · intro data tr h1 h2
      obtain ⟨fs, rfl⟩ := obj_of_jsIn_true h1
      simp [Session.deleteFile, h1, h2, hreq, ebind_ok, ebind_err, JsVal.get?]
    · intro data tr h1 h2 h3
      obtain ⟨fs, rfl⟩ := obj_of_jsIn_true h1
      simp [Session.getAuthToken, h1, h2, h3, hreq, ebind_ok, ebind_err, JsVal.get?]

/-- C3 witness: at the concrete fresh session, three representative
operations (with inputs passing their own validation) throw the TypeError
without any dependence on the transport. -/
theorem c3_unauthorized_ops_throw_witness :
    Session.listBuckets stFresh .undefined trUpload = .error "TypeError" ∧
    Session.getFileInfo stFresh (.obj [("fileId", .str "f1")]) trUpload = .error "TypeError" ∧
    Session.deleteFile stFresh (.obj [("fileName", .str "a.txt"), ("fileId", .str "f1")])
      trUpload = .error "TypeError" :=
  ⟨(c3_unauthorized_ops_throw.2.2 stFresh rfl rfl).1 .undefined trUpload,
   (c3_unauthorized_ops_throw.2.2 stFresh rfl rfl).2.2.2.2.1
     (.obj [("fileId", .str "f1")]) trUpload,
   (c3_unauthorized_ops_throw.2.2 stFresh rfl rfl).2.2.2.2.2.2.1
     (.obj [("fileName", .str "a.txt"), ("fileId", .str "f1")]) trUpload rfl rfl⟩

/-- Truthiness of the null error slot of a successful transport outcome. -/
theorem truthy_null : JsVal.null.truthy = false := rfl

/-- Truthiness of a boolean value. -/
theorem truthy_bool (b : Bool) : (JsVal.bool b).truthy = b := rfl

set_option maxHeartbeats 1600000 in
/-- C6.  For `getFileInfo({fileName, bucketName})`: (a) the bucket name is
resolved to a bucketId through a `listBuckets` name-filter call, the file
name to a fileId through a strict `listFileVersions` call, and the file info
is fetched by that fileId, the three calls being issued in that order and
the final fetch's body returned; (b) when the strict lookup yields zero
exact matches the operation fails with the status-0 "Unable to locate
file." error (the NotFoundError) after only the two resolution calls;
(c) when the first resolution call fails — a transport error or a non-200,
whatever the response gate normalizes to an error — that error is
propagated and no further call is attempted; (d) when the first call
succeeds but the strict `listFileVersions` step fails the same way, its
error is propagated after only the two calls and the final fetch is never
attempted. -/
theorem c6_getFileInfo_resolution (st : Session) (rq : ReqDefaults)
    (fn bn : String) (tr : Transport)
    (hreq : st.request = some rq) :
    (∀ resp1 body1 buckets bk idB resp2 body2 nf1 nf2 files2 f0 rest idF resp3 body3,
      tr (.get ("/b2_list_buckets?accountId=" ++ st.accountId.toStr))
        = ⟨.null, resp1, body1⟩ →
      resp1.get? "statusCode" = .ok (.num 200) →
      body1.get? "buckets" = .ok (.arr buckets) →
      lastMatch "bucketName" (.str bn) buckets = .ok (some bk) →
      bk.get? "bucketId" = .ok idB →
      tr (.post "/b2_list_file_versions" (.obj [("bucketId", idB), ("startFileName", .str fn)]))
        = ⟨.null, resp2, body2⟩ →
      resp2.get? "statusCode" = .ok (.num 200) →
      body2.get? "nextFileId" = .ok nf1 →
      body2.get? "nextFileName" = .ok nf2 →
      body2.get? "files" = .ok (.arr files2) →
      filterByField "fileName" (.str fn) files2 = .ok (f0 :: rest) →
      f0.get? "fileId" = .ok idF →
      tr (.post "/b2_get_file_info" (.obj [("fileId", idF)])) = ⟨.null, resp3, body3⟩ →
      resp3.get? "statusCode" = .ok (.num 200) →
      st.getFileInfo (.obj [("fileName", .str fn), ("bucketName", .str bn)]) tr
        = .ok ([.get ("/b2_list_buckets?accountId=" ++ st.accountId.toStr),
                .post "/b2_list_file_versions"
                  (.obj [("bucketId", idB), ("startFileName", .str fn)]),
                .post "/b2_get_file_info" (.obj [("fileId", idF)])],
               .success body3)) ∧
    (∀ resp1 body1 buckets bk idB resp2 body2 nf1 nf2 files2,
      tr (.get ("/b2_list_buckets?accountId=" ++ st.accountId.toStr))
        = ⟨.null, resp1, body1⟩ →
      resp1.get? "statusCode" = .ok (.num 200) →
      body1.get? "buckets" = .ok (.arr buckets) →
      lastMatch "bucketName" (.str bn) buckets = .ok (some bk) →
      bk.get? "bucketId" = .ok idB →
      tr (.post "/b2_list_file_versions" (.obj [("bucketId", idB), ("startFileName", .str fn)]))
        = ⟨.null, resp2, body2⟩ →
      resp2.get? "statusCode" = .ok (.num 200) →
      body2.get? "nextFileId" = .ok nf1 →
      body2.get? "nextFileName" = .ok nf2 →
      body2.get? "files" = .ok (.arr files2) →
      filterByField "fileName" (.str fn) files2 = .ok [] →
      st.getFileInfo (.obj [("fileName", .str fn), ("bucketName", .str bn)]) tr
        = .ok ([.get ("/b2_list_buckets?accountId=" ++ st.accountId.toStr),
                .post "/b2_list_file_versions"
                  (.obj [("bucketId", idB), ("startFileName", .str fn)])],
               .failure ⟨.num 0, .str "application_error", .str "Unable to locate file.",
                         .str "Unable to locate file."⟩)) ∧
    (∀ errv resp1 body1 e,
      tr (.get ("/b2_list_buckets?accountId=" ++ st.accountId.toStr))
        = ⟨errv, resp1, body1⟩ →
      checkResp ⟨errv, resp1, body1⟩ = .ok (some e) →
      st.getFileInfo (.obj [("fileName", .str fn), ("bucketName", .str bn)]) tr
        = .ok ([.get ("/b2_list_buckets?accountId=" ++ st.accountId.toStr)],
               .failure e)) ∧
    (∀ resp1 body1 buckets bk idB errv2 resp2 body2 e2,
      tr (.get ("/b2_list_buckets?accountId=" ++ st.accountId.toStr))
        = ⟨.null, resp1, body1⟩ →
      resp1.get? "statusCode" = .ok (.num 200) →
      body1.get? "buckets" = .ok (.arr buckets) →
      lastMatch "bucketName" (.str bn) buckets = .ok (some bk) →
      bk.get? "bucketId" = .ok idB →
      tr (.post "/b2_list_file_versions" (.obj [("bucketId", idB), ("startFileName", .str fn)]))
        = ⟨errv2, resp2, body2⟩ →
      checkResp ⟨errv2, resp2, body2⟩ = .ok (some e2) →
      st.getFileInfo (.obj [("fileName", .str fn), ("bucketName", .str bn)]) tr
        = .ok ([.get ("/b2_list_buckets?accountId=" ++ st.accountId.toStr),
                .post "/b2_list_file_versions"
                  (.obj [("bucketId", idB), ("startFileName", .str fn)])],
               .failure e2)) := by
  refine ⟨?_, ?_, ?_, ?_⟩
  · intro resp1 body1 buckets bk idB resp2 body2 nf1 nf2 files2 f0 rest idF resp3 body3
      h1 hsc1 hb1 hlm hbk h2 hsc2 hnfi hnfn hf2 hfilter hfid h3 hsc3
    simp [Session.getFileInfo, Session.getFileInfoFuel, Session.listBuckets,
      Session.listFileVersions, standardResp, checkResp, jsIn, get?_obj, JsVal.getF,
      JsVal.set, setAssoc, ebind_ok, ebind_err, h1, hsc1, hb1, hlm, hbk, h2, hsc2,
      hnfi, hnfn, hf2, hfilter, hfid, h3, hsc3, hreq, jsStrictEq_num_self,
      truthy_null, truthy_bool, jsArr, Nat.lt_one_iff]
  · intro resp1 body1 buckets bk idB resp2 body2 nf1 nf2 files2
      h1 hsc1 hb1 hlm hbk h2 hsc2 hnfi hnfn hf2 hfilter
    simp [Session.getFileInfo, Session.getFileInfoFuel, Session.listBuckets,
      Session.listFileVersions, standardResp, checkResp, jsIn, get?_obj, JsVal.getF,
      JsVal.set, setAssoc, ebind_ok, ebind_err, h1, hsc1, hb1, hlm, hbk, h2, hsc2,
      hnfi, hnfn, hf2, hfilter, hreq, jsStrictEq_num_self,
      truthy_null, truthy_bool, jsArr, Nat.lt_one_iff, b2Error_str]
  · intro errv resp1 body1 e h1 hc
    simp [Session.getFileInfo, Session.getFileInfoFuel, Session.listBuckets,
      jsIn, get?_obj, JsVal.getF, List.find?, ebind_ok, ebind_err, h1, hc, hreq]
  · intro resp1 body1 buckets bk idB errv2 resp2 body2 e2 h1 hsc1 hb1 hlm hbk h2 hc2
    have hok1 : checkResp ⟨.null, resp1, body1⟩ = .ok none := by
      simp [checkResp, truthy_null, hsc1, jsStrictEq_num_self, ebind_ok]
    simp [Session.getFileInfo, Session.getFileInfoFuel, Session.listBuckets,
      Session.listFileVersions, jsIn, get?_obj, JsVal.getF, List.find?, JsVal.set,
      setAssoc, ebind_ok, ebind_err, h1, hok1, hb1, hlm, hbk, h2, hc2, hreq,
      truthy_bool, jsArr]

/-- C6 witness, one concrete scenario per conjunct: (a) bucketName
"photos" resolves to bucketId "b1", the strict lookup for "img.png" returns
exactly one match with fileId "f1", and the final fetch's body is returned
after the three calls; (b) a page holding only "other.png" gives zero exact
matches and the status-0 "Unable to locate file." failure after the two
resolution calls; (c) a 503 on the listBuckets call propagates its
normalized error after that single call; (d) a 503 on the strict
listFileVersions call propagates its normalized error after the two calls,
with no final fetch. -/
theorem c6_getFileInfo_resolution_witness :
    Session.getFileInfo stAuth
      (.obj [("fileName", .str "img.png"), ("bucketName", .str "photos")])
      (fun c => match c with
        | .get _ =>
          { err := .null,
            resp := .obj [("statusCode", .num 200),
              ("body", .obj [("buckets", .arr
                [.obj [("bucketName", .str "photos"), ("bucketId", .str "b1")]])])],
            body := .obj [("buckets", .arr
              [.obj [("bucketName", .str "photos"), ("bucketId", .str "b1")]])] }
        | .post u _ =>
          if u == "/b2_list_file_versions" then
            { err := .null,
              resp := .obj [("statusCode", .num 200),
                ("body", .obj [("files", .arr
                    [.obj [("fileName", .str "img.png"), ("fileId", .str "f1")]]),
                  ("nextFileId", .null), ("nextFileName", .null)])],
              body := .obj [("files", .arr
                  [.obj [("fileName", .str "img.png"), ("fileId", .str "f1")]]),
                ("nextFileId", .null), ("nextFileName", .null)] }
          else
            { err := .null,
              resp := .obj [("statusCode", .num 200),
                ("body", .obj [("fileId", .str "f1"), ("fileName", .str "img.png")])],
              body := .obj [("fileId", .str "f1"), ("fileName", .str "img.png")] })
    = .ok ([.get "/b2_list_buckets?accountId=acct1",
            .post "/b2_list_file_versions"
              (.obj [("bucketId", .str "b1"), ("startFileName", .str "img.png")]),
            .post "/b2_get_file_info" (.obj [("fileId", .str "f1")])],
           .success (.obj [("fileId", .str "f1"), ("fileName", .str "img.png")])) ∧
    Session.getFileInfo stAuth
      (.obj [("fileName", .str "img.png"), ("bucketName", .str "photos")])
      (fun c => match c with
        | .get _ =>
          { err := .null,
            resp := .obj [("statusCode", .num 200),
              ("body", .obj [("buckets", .arr
                [.obj [("bucketName", .str "photos"), ("bucketId", .str "b1")]])])],
            body := .obj [("buckets", .arr
              [.obj [("bucketName", .str "photos"), ("bucketId", .str "b1")]])] }
        | .post _ _ =>
          { err := .null,
            resp := .obj [("statusCode", .num 200),
              ("body", .obj [("files", .arr
                  [.obj [("fileName", .str "other.png"), ("fileId", .str "f9")]]),
                ("nextFileId", .null), ("nextFileName", .null)])],
            body := .obj [("files", .arr
                [.obj [("fileName", .str "other.png"), ("fileId", .str "f9")]]),
              ("nextFileId", .null), ("nextFileName", .null)] })
    = .ok ([.get "/b2_list_buckets?accountId=acct1",
            .post "/b2_list_file_versions"
              (.obj [("bucketId", .str "b1"), ("startFileName", .str "img.png")])],
           .failure ⟨.num 0, .str "application_error", .str "Unable to locate file.",
                     .str "Unable to locate file."⟩) ∧
    Session.getFileInfo stAuth
      (.obj [("fileName", .str "img.png"), ("bucketName", .str "photos")])
      (fun _ =>
        { err := .null,
          resp := .obj [("statusCode", .num 503),
            ("body", .obj [("status", .num 503), ("code", .str "service_unavailable"),
                           ("message", .str "busy")])],
          body := .obj [("status", .num 503), ("code", .str "service_unavailable"),
                        ("message", .str "busy")] })
    = .ok ([.get "/b2_list_buckets?accountId=acct1"],
           .failure ⟨.num 503, .str "service_unavailable", .str "busy",
             .obj [("statusCode", .num 503),
               ("body", .obj [("status", .num 503), ("code", .str "service_unavailable"),
                              ("message", .str "busy")])]⟩) ∧
    Session.getFileInfo stAuth
      (.obj [("fileName", .str "img.png"), ("bucketName", .str "photos")])
      (fun c => match c with
        | .get _ =>
          { err := .null,
            resp := .obj [("statusCode", .num 200),
              ("body", .obj [("buckets", .arr
                [.obj [("bucketName", .str "photos"), ("bucketId", .str "b1")]])])],
            body := .obj [("buckets", .arr
              [.obj [("bucketName", .str "photos"), ("bucketId", .str "b1")]])] }
        | .post _ _ =>
          { err := .null,
            resp := .obj [("statusCode", .num 503),
              ("body", .obj [("status", .num 503), ("code", .str "service_unavailable"),
                             ("message", .str "busy")])],
            body := .obj [("status", .num 503), ("code", .str "service_unavailable"),
                          ("message", .str "busy")] })
    = .ok ([.get "/b2_list_buckets?accountId=acct1",
            .post "/b2_list_file_versions"
              (.obj [("bucketId", .str "b1"), ("startFileName", .str "img.png")])],
           .failure ⟨.num 503, .str "service_unavailable", .str "busy",
             .obj [("statusCode", .num 503),
               ("body", .obj [("status", .num 503), ("code", .str "service_unavailable"),
                              ("message", .str "busy")])]⟩) := by
  refine ⟨?_, ?_, ?_, ?_⟩
  · exact (c6_getFileInfo_resolution stAuth rqd "img.png" "photos" _ rfl).1
      _ _ _ _ _ _ _ _ _ _ _ _ _ _ _ rfl rfl rfl rfl rfl rfl rfl rfl rfl rfl rfl rfl rfl rfl
  · exact (c6_getFileInfo_resolution stAuth rqd "img.png" "photos" _ rfl).2.1
      _ _ _ _ _ _ _ _ _ _ rfl rfl rfl rfl rfl rfl rfl rfl rfl rfl rfl
  · exact (c6_getFileInfo_resolution stAuth rqd "img.png" "photos" _ rfl).2.2.1
      _ _ _ _ rfl rfl
  · exact (c6_getFileInfo_resolution stAuth rqd "img.png" "photos" _ rfl).2.2.2
      _ _ _ _ _ _ _ _ _ rfl rfl rfl rfl rfl rfl rfl
